import Mathlib

/-!
Shallow embedding of `src/daily_agent.py` (Daily Codex Automation Script).

The script is a linear orchestration procedure.  We model its observable
behaviour as a list of events (console prints, directory creation, resource
acquisition/release, the single hosted-service call, file writes) produced
from an environment that records the outcome of each external interaction:
whether the agent packages import, the value of the `OPENAI_API_KEY`
environment variable, whether the MCP server's `__aenter__` raises, the
outcome of `Runner.run`, and whether the two `write_text` calls raise.

Python control flow is translated directly:
  * module-level code (import guard, `OUTPUT_DIR.mkdir`, `DATE_STR`,
    API-key check) is `moduleInit`;
  * the coroutine `run_daily_automation` is `run_daily_automation`,
    with the `async with` block's guaranteed `__aexit__` modelled by a
    `release` event emitted on every exit path of the block's body
    (and not emitted when `__aenter__` itself raises);
  * the `__main__` block is `scriptMain`.

`sys.exit(1)` is modelled by the run returning exit status `some 1`;
normal completion returns `none` and the script then exits 0.
The agent's instruction text (a fixed template interpolated with the date)
is not reproduced character-for-character since no claim refers to its
content; the `Agent` construction is otherwise embedded in `AgentCfg`.
-/

/-- The one tool-provider reference passed to the agent
(`mcp_servers=[codex_mcp_server]` in the source). -/
inductive ToolRef where
  | codexServer
deriving DecidableEq, Repr

/-- Embedding of the `Agent(...)` construction: its name, model identifier
and MCP server list (the instructions text is elided, see module docstring). -/
structure AgentCfg where
  agentName : String
  model : String
  mcpServers : List ToolRef
deriving DecidableEq, Repr

/-- The agent constructed at lines 51-69 of the source:
`name="Daily Automation Agent"`, `model="gpt-5"`,
`mcp_servers=[codex_mcp_server]`. -/
def automationAgent : AgentCfg :=
  { agentName := "Daily Automation Agent"
    model := "gpt-5"
    mcpServers := [ToolRef.codexServer] }

/-- Output files the script can write, with their run timestamp. -/
inductive FileName where
  | summary (d : String)
  | errorLog (d : String)
deriving DecidableEq, Repr

/-- `OUTPUT_DIR = Path("./daily-automation-output")` (line 22). -/
def OUTPUT_DIR : String := "./daily-automation-output"

/-- Path of an output file, as the source builds it:
`OUTPUT_DIR / f"summary-\x7bDATE_STR\x7d.txt"` and
`OUTPUT_DIR / f"error-\x7bDATE_STR\x7d.log"` (lines 84, 95). -/
def FileName.path : FileName → String
  | FileName.summary d => OUTPUT_DIR ++ "/summary-" ++ d ++ ".txt"
  | FileName.errorLog d => OUTPUT_DIR ++ "/error-" ++ d ++ ".log"

/-- Observable events of one execution of the script. -/
inductive Event where
  /-- a `print(...)` to standard output -/
  | printOut (s : String)
  /-- a `print(..., file=sys.stderr)` to the error stream -/
  | printErr (s : String)
  /-- `OUTPUT_DIR.mkdir(exist_ok=True)` (line 23) -/
  | mkdirOut
  /-- the MCP server process was started (`MCPServerStdio.__aenter__`) -/
  | acquire
  /-- the MCP server process was shut down (`MCPServerStdio.__aexit__`) -/
  | release
  /-- the single `Runner.run(agent, task, max_turns=...)` call (lines 74-78) -/
  | runnerCall (agent : AgentCfg) (task : String) (maxTurns : Nat)
  /-- a successful `Path.write_text` of `content` to `name` -/
  | writeFile (name : FileName) (content : String)
deriving DecidableEq, Repr

/-- Environment of the module-level code: whether `from agents import ...`
succeeds, the value of `os.getenv("OPENAI_API_KEY")` (`none` = unset),
and the `datetime.now()` timestamp formatted into `DATE_STR` (line 24). -/
structure ModuleEnv where
  importsOk : Bool
  apiKey : Option String
  nowModule : String
deriving DecidableEq, Repr

/-- Environment of one call of the coroutine: the timestamps printed or
written at runtime, the outcome of the MCP server startup (`none` = started,
`some e` = `__aenter__` raised with message `e`), the outcome of
`Runner.run`, whether the summary `write_text` raises (`some e` = raised),
and whether the error-log `write_text` succeeds. -/
structure RunEnv where
  nowStart : String
  nowError : String
  serverStart : Option String
  runnerOutcome : Except String String
  summaryWriteErr : Option String
  errorWriteOk : Bool
deriving Repr

/-- Python truthiness test `not API_KEY` on an optional string: true when
the variable is unset (`None`) or set to the empty string. -/
def falsyStr : Option String → Bool
  | none => true
  | some s => s == ""

/-- Message printed when the agent packages are missing (line 18). -/
def missingPkgMsg : String :=
  "Error: Required packages not installed. Run: pip install openai openai-agents"

/-- Message printed when `OPENAI_API_KEY` is missing (line 29). -/
def missingKeyMsg : String :=
  "Error: OPENAI_API_KEY environment variable not set"

/-- The `"="*60` separator printed by the `__main__` block. -/
def sepLine : String := String.mk (List.replicate 60 '=')

/-- Module-level code of `daily_agent.py` (lines 14-32), in source order:
the import guard (print + `sys.exit(1)` on failure), the `OUTPUT_DIR.mkdir`,
the computation of `DATE_STR`, and the API-key check (print + `sys.exit(1)`
when falsy).  Returns the emitted events and `some DATE_STR` when the module
loads, `none` when it exited (always with status 1). -/
def moduleInit (env : ModuleEnv) : List Event × Option String :=
  if env.importsOk then
    if falsyStr env.apiKey then
      ([Event.mkdirOut, Event.printOut missingKeyMsg], none)
    else
      ([Event.mkdirOut], some env.nowModule)
  else
    ([Event.printOut missingPkgMsg], none)

/-- Prefix of the error message built at line 91:
`f"Error in daily automation: \x7bstr(e)\x7d"`. -/
def errorPrefix : String := "Error in daily automation: "

/-- The `except Exception as e` handler (lines 90-97): print the message to
the error stream, write the timestamped error log
(content `f"\x7bdatetime.now()\x7d: \x7berror_msg\x7d\n\x7bstr(e)\x7d"`), and
`sys.exit(1)`.  When the error-log `write_text` itself raises, the new
exception is uncaught and the interpreter still exits with status 1, with
no error file written. -/
def exceptHandler (d : String) (env : RunEnv) (e : String) :
    List Event × Option Nat :=
  let errorMsg := errorPrefix ++ e
  if env.errorWriteOk then
    ([Event.printErr errorMsg,
      Event.writeFile (FileName.errorLog d)
        (env.nowError ++ ": " ++ errorMsg ++ "\n" ++ e)], some 1)
  else
    ([Event.printErr errorMsg], some 1)

/-- The coroutine `run_daily_automation` (lines 35-97), called with the
module-level `DATE_STR` as `d`.  The `async with MCPServerStdio(...)` block
emits `acquire` when `__aenter__` succeeds and `release` on every exit of
its body (normal return, or an exception unwinding towards the `except`
handler); when `__aenter__` raises, the exception goes straight to the
handler and no `release` is emitted.  Returns the events and `some 1` when
`sys.exit(1)` ran, `none` on normal return. -/
def run_daily_automation (d : String) (env : RunEnv) : List Event × Option Nat :=
  let t0 := [Event.printOut ("Starting daily automation at " ++ env.nowStart)]
  match env.serverStart with
  | some e =>
    let r := exceptHandler d env e
    (t0 ++ r.1, r.2)
  | none =>
    let t1 := t0 ++ [Event.acquire,
      Event.printOut "✓ Codex MCP server started",
      Event.printOut "⚙️  Running daily automation tasks...",
      Event.runnerCall automationAgent
        "Execute daily automation and generate comprehensive report" 20]
    match env.runnerOutcome with
    | Except.error e =>
      let r := exceptHandler d env e
      (t1 ++ [Event.release] ++ r.1, r.2)
    | Except.ok out =>
      let t2 := t1 ++ [Event.printOut "✓ Daily automation completed",
        Event.printOut ("\nFinal Output:\n" ++ out)]
      match env.summaryWriteErr with
      | none =>
        (t2 ++ [Event.writeFile (FileName.summary d) out,
          Event.printOut ("\n✓ Summary saved to " ++ (FileName.summary d).path),
          Event.release], none)
      | some e =>
        let r := exceptHandler d env e
        (t2 ++ [Event.release] ++ r.1, r.2)

/-- The whole script: module-level code, then the `__main__` block
(banner prints, `asyncio.run(run_daily_automation())`, trailing banner on
normal return).  Returns the full event trace and the process exit status. -/
def scriptMain (menv : ModuleEnv) (renv : RunEnv) : List Event × Nat :=
  match moduleInit menv with
  | (t, none) => (t, 1)
  | (t, some d) =>
    let banner := [Event.printOut sepLine,
      Event.printOut "Daily Codex Automation", Event.printOut sepLine]
    let r := run_daily_automation d renv
    match r.2 with
    | some c => (t ++ banner ++ r.1, c)
    | none => (t ++ banner ++ r.1 ++ [Event.printOut sepLine], 0)

/-- Two sequential calls of `run_daily_automation` within one process
lifetime (library use): the module is loaded once, then the coroutine runs
twice with the same module-level `DATE_STR`; if the first call exits the
process, the second never happens. -/
def twoLibraryRuns (menv : ModuleEnv) (r1 r2 : RunEnv) : List Event :=
  match moduleInit menv with
  | (t, none) => t
  | (t, some d) =>
    let a := run_daily_automation d r1
    match a.2 with
    | some _ => t ++ a.1
    | none => t ++ a.1 ++ (run_daily_automation d r2).1

/-- The files written in a trace, in order, as (name, content) pairs. -/
def writesOf (t : List Event) : List (FileName × String) :=
  t.filterMap fun e =>
    match e with
    | Event.writeFile n c => some (n, c)
    | _ => none

/-- The hosted-service calls in a trace, in order. -/
def callsOf (t : List Event) : List (AgentCfg × String × Nat) :=
  t.filterMap fun e =>
    match e with
    | Event.runnerCall a task m => some (a, task, m)
    | _ => none

/-- The part of a trace strictly after the first `acquire` event. -/
def afterAcquire (t : List Event) : List Event :=
  (t.dropWhile fun e =>
    match e with
    | Event.acquire => false
    | _ => true).drop 1

/-- Replay the file writes of a trace over a filesystem (an association list
from file names to contents): a later write to an existing name overwrites
the earlier content. -/
def finalFS (t : List Event) (fs0 : List (FileName × String)) :
    List (FileName × String) :=
  t.foldl (fun fs e =>
    match e with
    | Event.writeFile n c => (fs.filter fun p => !(p.1 == n)) ++ [(n, c)]
    | _ => fs) fs0

/-- Helper: a string append is non-empty when its right part is. -/
theorem append_ne_empty_right (a b : String) (h : b ≠ "") : a ++ b ≠ "" := by
  intro hab
  apply h
  have hd := congrArg String.data hab
  rw [String.data_append] at hd
  have h2 := (List.append_eq_nil.mp hd).2
  cases b with
  | mk l =>
    simp only [String.data] at h2
    subst h2
    rfl

/-- Helper: a string append is non-empty when its left part is. -/
theorem append_ne_empty_left (a b : String) (h : a ≠ "") : a ++ b ≠ "" := by
  intro hab
  apply h
  have hd := congrArg String.data hab
  rw [String.data_append] at hd
  have h2 := (List.append_eq_nil.mp hd).1
  cases a with
  | mk l =>
    simp only [String.data] at h2
    subst h2
    rfl

/-- C1: on a successful run (server starts, the hosted call returns a final
output, the summary write does not raise), the run writes exactly one file,
the summary file named `summary-<timestamp>.txt` under the output directory,
whose content is exactly the agent's final output, and the run completes
without calling `sys.exit`. -/
theorem C1_success_single_summary (d : String) (env : RunEnv) (out : String)
    (h1 : env.serverStart = none) (h2 : env.runnerOutcome = Except.ok out)
    (h3 : env.summaryWriteErr = none) :
    writesOf (run_daily_automation d env).1 = [(FileName.summary d, out)] ∧
    (FileName.summary d).path =
      "./daily-automation-output/summary-" ++ d ++ ".txt" ∧
    (run_daily_automation d env).2 = none := by
  refine ⟨?_, rfl, ?_⟩ <;>
    simp [run_daily_automation, h1, h2, h3, writesOf]

/-- Witness for C1 at a concrete successful run. -/
theorem C1_success_single_summary_witness :
    writesOf (run_daily_automation "20260101_120000"
        ⟨"t0", "t1", none, Except.ok "final report", none, true⟩).1 =
      [(FileName.summary "20260101_120000", "final report")] ∧
    (FileName.summary "20260101_120000").path =
      "./daily-automation-output/summary-" ++ "20260101_120000" ++ ".txt" ∧
    (run_daily_automation "20260101_120000"
        ⟨"t0", "t1", none, Except.ok "final report", none, true⟩).2 = none :=
  C1_success_single_summary "20260101_120000"
    ⟨"t0", "t1", none, Except.ok "final report", none, true⟩
    "final report" rfl rfl rfl

/-- C2: when `OPENAI_API_KEY` is unset or empty the process exits with
status 1, no file is written, the tool-provider process is never started and
no hosted-service call is made. -/
theorem C2_missing_key_no_activity (menv : ModuleEnv) (renv : RunEnv)
    (h : falsyStr menv.apiKey = true) :
    (scriptMain menv renv).2 = 1 ∧
    writesOf (scriptMain menv renv).1 = [] ∧
    Event.acquire ∉ (scriptMain menv renv).1 ∧
    callsOf (scriptMain menv renv).1 = [] := by
  obtain ⟨imp, key, nm⟩ := menv
  cases imp
  · simp [scriptMain, moduleInit, writesOf, callsOf]
  · simp [scriptMain, moduleInit, h, writesOf, callsOf]

/-- Witness for C2 with the variable unset. -/
theorem C2_missing_key_no_activity_witness :
    falsyStr (ModuleEnv.mk true none "20260101_120000").apiKey = true ∧
    ((scriptMain ⟨true, none, "20260101_120000"⟩
        ⟨"t0", "t1", none, Except.ok "o", none, true⟩).2 = 1 ∧
      writesOf (scriptMain ⟨true, none, "20260101_120000"⟩
        ⟨"t0", "t1", none, Except.ok "o", none, true⟩).1 = [] ∧
      Event.acquire ∉ (scriptMain ⟨true, none, "20260101_120000"⟩
        ⟨"t0", "t1", none, Except.ok "o", none, true⟩).1 ∧
      callsOf (scriptMain ⟨true, none, "20260101_120000"⟩
        ⟨"t0", "t1", none, Except.ok "o", none, true⟩).1 = []) :=
  ⟨rfl, C2_missing_key_no_activity ⟨true, none, "20260101_120000"⟩
    ⟨"t0", "t1", none, Except.ok "o", none, true⟩ rfl⟩

/-- C10: when the agent packages fail to import, the script prints the
installation hint to standard output and exits with status 1 before any
filesystem side effect: the whole trace is that single print, so the output
directory is not created and no file is written. -/
theorem C10_missing_packages (menv : ModuleEnv) (renv : RunEnv)
    (h : menv.importsOk = false) :
    scriptMain menv renv = ([Event.printOut missingPkgMsg], 1) ∧
    Event.mkdirOut ∉ (scriptMain menv renv).1 ∧
    writesOf (scriptMain menv renv).1 = [] := by
  refine ⟨?_, ?_, ?_⟩ <;> simp [scriptMain, moduleInit, h, writesOf]

/-- Witness for C10 at a concrete failing import. -/
theorem C10_missing_packages_witness :
    (ModuleEnv.mk false (some "k") "20260101_120000").importsOk = false ∧
    (scriptMain ⟨false, some "k", "20260101_120000"⟩
        ⟨"t0", "t1", none, Except.ok "o", none, true⟩ =
      ([Event.printOut missingPkgMsg], 1) ∧
    Event.mkdirOut ∉ (scriptMain ⟨false, some "k", "20260101_120000"⟩
        ⟨"t0", "t1", none, Except.ok "o", none, true⟩).1 ∧
    writesOf (scriptMain ⟨false, some "k", "20260101_120000"⟩
        ⟨"t0", "t1", none, Except.ok "o", none, true⟩).1 = []) :=
  ⟨rfl, C10_missing_packages ⟨false, some "k", "20260101_120000"⟩
    ⟨"t0", "t1", none, Except.ok "o", none, true⟩ rfl⟩

/-- C3: for every exception raised during MCP server startup or the hosted
service call (with the error-log write itself succeeding), the run prints
the error message to the error stream, writes exactly one file, the
timestamped error log, whose content is the timestamp line followed by the
human-readable message and the raw error text and is non-empty, and calls
`sys.exit(1)`. -/
theorem C3_runtime_error_logged (d : String) (env : RunEnv) (e : String)
    (hw : env.errorWriteOk = true)
    (h : env.serverStart = some e ∨
         (env.serverStart = none ∧ env.runnerOutcome = Except.error e)) :
    (run_daily_automation d env).2 = some 1 ∧
    Event.printErr (errorPrefix ++ e) ∈ (run_daily_automation d env).1 ∧
    writesOf (run_daily_automation d env).1 =
      [(FileName.errorLog d,
        env.nowError ++ ": " ++ (errorPrefix ++ e) ++ "\n" ++ e)] ∧
    env.nowError ++ ": " ++ (errorPrefix ++ e) ++ "\n" ++ e ≠ "" ∧
    (FileName.errorLog d).path = OUTPUT_DIR ++ "/error-" ++ d ++ ".log" := by
  have hne : env.nowError ++ ": " ++ (errorPrefix ++ e) ++ "\n" ++ e ≠ "" :=
    append_ne_empty_left _ _ (append_ne_empty_right _ _ (by decide))
  rcases h with h1 | ⟨h1, h2⟩
  · exact ⟨by simp [run_daily_automation, h1, exceptHandler, hw],
      by simp [run_daily_automation, h1, exceptHandler, hw],
      by simp [run_daily_automation, h1, exceptHandler, hw, writesOf],
      hne, rfl⟩
  · exact ⟨by simp [run_daily_automation, h1, h2, exceptHandler, hw],
      by simp [run_daily_automation, h1, h2, exceptHandler, hw],
      by simp [run_daily_automation, h1, h2, exceptHandler, hw, writesOf],
      hne, rfl⟩

/-- Witness for C3 at a concrete run whose hosted call raises. -/
theorem C3_runtime_error_logged_witness :
    (RunEnv.mk "t0" "t1" none (Except.error "boom") none true).errorWriteOk
        = true ∧
    ((run_daily_automation "20260101_120000"
        ⟨"t0", "t1", none, Except.error "boom", none, true⟩).2 = some 1 ∧
      Event.printErr (errorPrefix ++ "boom") ∈
        (run_daily_automation "20260101_120000"
          ⟨"t0", "t1", none, Except.error "boom", none, true⟩).1 ∧
      writesOf (run_daily_automation "20260101_120000"
          ⟨"t0", "t1", none, Except.error "boom", none, true⟩).1 =
        [(FileName.errorLog "20260101_120000",
          (RunEnv.mk "t0" "t1" none (Except.error "boom") none true).nowError
            ++ ": " ++ (errorPrefix ++ "boom") ++ "\n" ++ "boom")] ∧
      (RunEnv.mk "t0" "t1" none (Except.error "boom") none true).nowError
          ++ ": " ++ (errorPrefix ++ "boom") ++ "\n" ++ "boom" ≠ "" ∧
      (FileName.errorLog "20260101_120000").path =
        OUTPUT_DIR ++ "/error-" ++ "20260101_120000" ++ ".log") :=
  ⟨rfl, C3_runtime_error_logged "20260101_120000"
    ⟨"t0", "t1", none, Except.error "boom", none, true⟩ "boom" rfl
    (Or.inr ⟨rfl, rfl⟩)⟩

/-- C9: when the summary write raises after the final output was obtained,
the top-level handler catches it: the run exits with status 1, writes the
timestamped error file, and no summary file is produced. -/
theorem C9_summary_write_failure (d : String) (env : RunEnv) (out e : String)
    (h1 : env.serverStart = none) (h2 : env.runnerOutcome = Except.ok out)
    (h3 : env.summaryWriteErr = some e) (h4 : env.errorWriteOk = true) :
    (run_daily_automation d env).2 = some 1 ∧
    writesOf (run_daily_automation d env).1 =
      [(FileName.errorLog d,
        env.nowError ++ ": " ++ (errorPrefix ++ e) ++ "\n" ++ e)] ∧
    ∀ c : String,
      (FileName.summary d, c) ∉ writesOf (run_daily_automation d env).1 := by
  refine ⟨?_, ?_, ?_⟩ <;>
    simp [run_daily_automation, h1, h2, h3, h4, exceptHandler, writesOf]

/-- Witness for C9 at a concrete run whose summary write raises. -/
theorem C9_summary_write_failure_witness :
    (RunEnv.mk "t0" "t1" none (Except.ok "final") (some "disk full") true
      ).serverStart = none ∧
    ((run_daily_automation "20260101_120000"
        ⟨"t0", "t1", none, Except.ok "final", some "disk full", true⟩).2
        = some 1 ∧
      writesOf (run_daily_automation "20260101_120000"
          ⟨"t0", "t1", none, Except.ok "final", some "disk full", true⟩).1 =
        [(FileName.errorLog "20260101_120000",
          "t1" ++ ": " ++ (errorPrefix ++ "disk full") ++ "\n" ++ "disk full")] ∧
      ∀ c : String, (FileName.summary "20260101_120000", c) ∉
        writesOf (run_daily_automation "20260101_120000"
          ⟨"t0", "t1", none, Except.ok "final", some "disk full", true⟩).1) :=
  ⟨rfl, C9_summary_write_failure "20260101_120000"
    ⟨"t0", "t1", none, Except.ok "final", some "disk full", true⟩
    "final" "disk full" rfl rfl rfl rfl⟩

/-- C4: on every exit path of a run in which the tool-provider process was
acquired (the `acquire` event is in the trace), a `release` event follows
it later in the trace, so the MCP server process is shut down before the
program exits; the handle is never leaked. -/
theorem C4_release_follows_acquire (d : String) (env : RunEnv)
    (h : Event.acquire ∈ (run_daily_automation d env).1) :
    Event.release ∈ afterAcquire (run_daily_automation d env).1 := by
  obtain ⟨ns, ne, ss, ro, sw, ew⟩ := env
  cases ss <;> cases ro <;> cases sw <;> cases ew <;>
    simp_all [run_daily_automation, exceptHandler, afterAcquire,
      List.dropWhile]

/-- Witness for C4 at a concrete run that fails during the hosted call. -/
theorem C4_release_follows_acquire_witness :
    Event.acquire ∈ (run_daily_automation "20260101_120000"
      ⟨"t0", "t1", none, Except.error "boom", none, true⟩).1 ∧
    Event.release ∈ afterAcquire (run_daily_automation "20260101_120000"
      ⟨"t0", "t1", none, Except.error "boom", none, true⟩).1 :=
  ⟨by decide, C4_release_follows_acquire "20260101_120000"
    ⟨"t0", "t1", none, Except.error "boom", none, true⟩ (by decide)⟩

/-- C8: whenever the agent packages import (so the module body runs), the
output directory is created, and this happens before the credential check:
a run with a missing credential still has the `mkdir` in its trace, right
before the diagnostic print, and exits 1. -/
theorem C8_mkdir_before_key_check (menv : ModuleEnv) (renv : RunEnv)
    (h1 : menv.importsOk = true) :
    Event.mkdirOut ∈ (scriptMain menv renv).1 ∧
    (falsyStr menv.apiKey = true →
      scriptMain menv renv =
        ([Event.mkdirOut, Event.printOut missingKeyMsg], 1)) := by
  constructor
  · by_cases hk : falsyStr menv.apiKey = true
    · simp [scriptMain, moduleInit, h1, hk]
    · simp only [Bool.not_eq_true] at hk
      have hm : moduleInit menv = ([Event.mkdirOut], some menv.nowModule) := by
        simp [moduleInit, h1, hk]
      simp only [scriptMain, hm]
      split <;> simp
  · intro hk
    simp [scriptMain, moduleInit, h1, hk]

/-- Witness for C8 at a concrete run with the credential empty. -/
theorem C8_mkdir_before_key_check_witness :
    (ModuleEnv.mk true (some "") "20260101_120000").importsOk = true ∧
    (Event.mkdirOut ∈ (scriptMain ⟨true, some "", "20260101_120000"⟩
        ⟨"t0", "t1", none, Except.ok "o", none, true⟩).1 ∧
      (falsyStr (ModuleEnv.mk true (some "") "20260101_120000").apiKey = true →
        scriptMain ⟨true, some "", "20260101_120000"⟩
            ⟨"t0", "t1", none, Except.ok "o", none, true⟩ =
          ([Event.mkdirOut, Event.printOut missingKeyMsg], 1))) :=
  ⟨rfl, C8_mkdir_before_key_check ⟨true, some "", "20260101_120000"⟩
    ⟨"t0", "t1", none, Except.ok "o", none, true⟩ rfl⟩

/-- C7: a run makes at most one hosted-service call, and whenever the
tool-provider starts it makes exactly one, passing the fixed agent (model
identifier `gpt-5`, tool list containing exactly the one tool-provider
reference), the fixed task text and a maximum turn count of 20. -/
theorem C7_single_runner_call (d : String) (env : RunEnv) :
    (callsOf (run_daily_automation d env).1).length ≤ 1 ∧
    (env.serverStart = none →
      callsOf (run_daily_automation d env).1 =
        [(automationAgent,
          "Execute daily automation and generate comprehensive report", 20)] ∧
      automationAgent.model = "gpt-5" ∧
      automationAgent.mcpServers = [ToolRef.codexServer]) := by
  obtain ⟨ns, ne, ss, ro, sw, ew⟩ := env
  cases ss <;> cases ro <;> cases sw <;> cases ew <;>
    simp [run_daily_automation, exceptHandler, callsOf, automationAgent]

/-- Witness for C7 at a concrete successful run. -/
theorem C7_single_runner_call_witness :
    (callsOf (run_daily_automation "20260101_120000"
      ⟨"t0", "t1", none, Except.ok "o", none, true⟩).1).length ≤ 1 ∧
    (callsOf (run_daily_automation "20260101_120000"
        ⟨"t0", "t1", none, Except.ok "o", none, true⟩).1 =
      [(automationAgent,
        "Execute daily automation and generate comprehensive report", 20)] ∧
      automationAgent.model = "gpt-5" ∧
      automationAgent.mcpServers = [ToolRef.codexServer]) :=
  ⟨(C7_single_runner_call "20260101_120000"
      ⟨"t0", "t1", none, Except.ok "o", none, true⟩).1,
    (C7_single_runner_call "20260101_120000"
      ⟨"t0", "t1", none, Except.ok "o", none, true⟩).2 rfl⟩

/-- C5 counterexample: with the credential unset, the diagnostic is emitted
by a plain `print(...)` to standard output; the trace contains no event at
all on the error stream, refuting the claim that the diagnostic goes to the
error stream. -/
theorem C5_counterexample :
    scriptMain ⟨true, none, "20260101_120000"⟩
        ⟨"t0", "t1", none, Except.ok "o", none, true⟩ =
      ([Event.mkdirOut, Event.printOut missingKeyMsg], 1) ∧
    Event.printErr missingKeyMsg ∉
      (scriptMain ⟨true, none, "20260101_120000"⟩
        ⟨"t0", "t1", none, Except.ok "o", none, true⟩).1 ∧
    Event.printOut missingKeyMsg ∈
      (scriptMain ⟨true, none, "20260101_120000"⟩
        ⟨"t0", "t1", none, Except.ok "o", none, true⟩).1 := by
  decide

/-- C5 amended: when the credential is absent, the diagnostic message is
printed to the standard output stream (not the error stream) before the
exit with status 1. -/
theorem C5_key_diag_to_stdout (menv : ModuleEnv) (renv : RunEnv)
    (h1 : menv.importsOk = true) (h2 : falsyStr menv.apiKey = true) :
    Event.printOut missingKeyMsg ∈ (scriptMain menv renv).1 ∧
    Event.printErr missingKeyMsg ∉ (scriptMain menv renv).1 ∧
    (scriptMain menv renv).2 = 1 := by
  refine ⟨?_, ?_, ?_⟩ <;> simp [scriptMain, moduleInit, h1, h2]

/-- Witness for the amended C5 at a concrete run with the variable unset. -/
theorem C5_key_diag_to_stdout_witness :
    (ModuleEnv.mk true none "20260101_120000").importsOk = true ∧
    (Event.printOut missingKeyMsg ∈
      (scriptMain ⟨true, none, "20260101_120000"⟩
        ⟨"t0", "t1", none, Except.error "x", none, true⟩).1 ∧
    Event.printErr missingKeyMsg ∉
      (scriptMain ⟨true, none, "20260101_120000"⟩
        ⟨"t0", "t1", none, Except.error "x", none, true⟩).1 ∧
    (scriptMain ⟨true, none, "20260101_120000"⟩
        ⟨"t0", "t1", none, Except.error "x", none, true⟩).2 = 1) :=
  ⟨rfl, C5_key_diag_to_stdout ⟨true, none, "20260101_120000"⟩
    ⟨"t0", "t1", none, Except.error "x", none, true⟩ rfl rfl⟩

/-- C6 counterexample: `DATE_STR` is computed once at module load, so two
sequential successful runs within the same process lifetime write summary
files with the same name (the same timestamp), and replaying both traces
over the filesystem leaves only the second run's content: the first run's
file is overwritten, refuting both the distinct-per-run-timestamp and the
never-overwritten parts of the claim. -/
theorem C6_counterexample :
    writesOf (run_daily_automation "20260101_120000"
        ⟨"s1", "e1", none, Except.ok "first", none, true⟩).1 =
      [(FileName.summary "20260101_120000", "first")] ∧
    writesOf (run_daily_automation "20260101_120000"
        ⟨"s2", "e2", none, Except.ok "second", none, true⟩).1 =
      [(FileName.summary "20260101_120000", "second")] ∧
    moduleInit ⟨true, some "k", "20260101_120000"⟩ =
      ([Event.mkdirOut], some "20260101_120000") ∧
    finalFS (twoLibraryRuns ⟨true, some "k", "20260101_120000"⟩
        ⟨"s1", "e1", none, Except.ok "first", none, true⟩
        ⟨"s2", "e2", none, Except.ok "second", none, true⟩) [] =
      [(FileName.summary "20260101_120000", "second")] := by
  decide

/-- C6 amended: every run names its output file with the single timestamp
computed at module load, so two sequential successful runs within the same
process lifetime use the same timestamp, write the same summary file name,
and the second run's write overwrites the first run's content. -/
theorem C6_module_timestamp_shared (menv : ModuleEnv) (r1 r2 : RunEnv)
    (d : String) (tr : List Event) (out1 out2 : String)
    (hm : moduleInit menv = (tr, some d))
    (h11 : r1.serverStart = none) (h12 : r1.runnerOutcome = Except.ok out1)
    (h13 : r1.summaryWriteErr = none)
    (h21 : r2.serverStart = none) (h22 : r2.runnerOutcome = Except.ok out2)
    (h23 : r2.summaryWriteErr = none) :
    writesOf (run_daily_automation d r1).1 = [(FileName.summary d, out1)] ∧
    writesOf (run_daily_automation d r2).1 = [(FileName.summary d, out2)] ∧
    finalFS (twoLibraryRuns menv r1 r2) [] =
      [(FileName.summary d, out2)] := by
  obtain ⟨imp, key, nm⟩ := menv
  cases imp
  · simp [moduleInit] at hm
  · by_cases hk : falsyStr key = true
    · simp [moduleInit, hk] at hm
    · simp only [Bool.not_eq_true] at hk
      simp only [moduleInit, hk, if_true, if_false, Bool.false_eq_true,
        if_neg, ite_false, ite_true] at hm
      rw [Prod.mk.injEq] at hm
      obtain ⟨htr, hd⟩ := hm
      rw [Option.some.injEq] at hd
      subst hd
      subst htr
      refine ⟨?_, ?_, ?_⟩ <;>
        simp [twoLibraryRuns, moduleInit, hk, run_daily_automation,
          h11, h12, h13, h21, h22, h23, writesOf, finalFS, List.foldl]

/-- Witness for the amended C6 at two concrete successful runs. -/
theorem C6_module_timestamp_shared_witness :
    moduleInit ⟨true, some "k", "20260101_120000"⟩ =
      ([Event.mkdirOut], some "20260101_120000") ∧
    (writesOf (run_daily_automation "20260101_120000"
        ⟨"sA", "eA", none, Except.ok "alpha", none, true⟩).1 =
      [(FileName.summary "20260101_120000", "alpha")] ∧
    writesOf (run_daily_automation "20260101_120000"
        ⟨"sB", "eB", none, Except.ok "beta", none, true⟩).1 =
      [(FileName.summary "20260101_120000", "beta")] ∧
    finalFS (twoLibraryRuns ⟨true, some "k", "20260101_120000"⟩
        ⟨"sA", "eA", none, Except.ok "alpha", none, true⟩
        ⟨"sB", "eB", none, Except.ok "beta", none, true⟩) [] =
      [(FileName.summary "20260101_120000", "beta")]) :=
  ⟨by decide, C6_module_timestamp_shared ⟨true, some "k", "20260101_120000"⟩
    ⟨"sA", "eA", none, Except.ok "alpha", none, true⟩
    ⟨"sB", "eB", none, Except.ok "beta", none, true⟩
    "20260101_120000" [Event.mkdirOut] "alpha" "beta"
    (by decide) rfl rfl rfl rfl rfl rfl⟩
